import Mathlib

set_option maxRecDepth 100000

/-!
Verification development for the llm-cost-utils library: a shallow embedding of
`token-usage-extraction.ts` (usage-shape normalization over JSON / SSE payloads)
and `token-cost-calculations.ts` (model pricing lookup and tiered cost
calculation), together with proofs of the specified properties.

Modelling conventions for the dynamically-typed source:
* JSON values are modelled by the mutual inductive `Json`; JavaScript's
  `undefined` (absent property) is modelled by `Option.none` of a field lookup,
  and a `null` input by `Json.null`.
* JavaScript `a || b` on numeric fields is modelled by `orI` (a present `0` is
  falsy and falls through); `x || 0` is `Option.getD 0`.  Fields holding
  non-numeric values are treated as absent by the numeric readers, and only
  string-valued `model` fields are retained, matching how the library is used
  on provider payloads (all counts are numbers, models are strings).
* JavaScript floating point arithmetic in the cost calculator is modelled by
  exact rational arithmetic over `Rat`.
-/
-- JSON values, mutually inductive with their list/field-list spines so that
-- all recursions below are structural and kernel-reducible.
mutual
inductive Json where
  | null : Json
  | bool : Bool → Json
  | num : Int → Json
  | str : String → Json
  | arr : JsonList → Json
  | obj : JsonFields → Json

inductive JsonList where
  | nil : JsonList
  | cons : Json → JsonList → JsonList

inductive JsonFields where
  | nil : JsonFields
  | cons : String → Json → JsonFields → JsonFields
end

/-- Build a field list from a Lean list of key/value pairs. -/
def fieldsOf : List (String × Json) → JsonFields
  | [] => .nil
  | (k, v) :: r => .cons k v (fieldsOf r)

/-- Object literal helper. -/
def jobj (l : List (String × Json)) : Json := Json.obj (fieldsOf l)

/-- First field with the given key (provider payloads carry no duplicate keys). -/
def getF : JsonFields → String → Option Json
  | .nil, _ => none
  | .cons k v r, key => if k = key then some v else getF r key

/-- JavaScript property access `j[k]`: `undefined` (`none`) unless `j` is an
object with the field. -/
def Json.get : Json → String → Option Json
  | .obj fs, k => getF fs k
  | _, _ => none

/-- Chained (optional-chaining) property access. -/
def Json.getPath : Json → List String → Option Json
  | j, [] => some j
  | j, k :: ks =>
    match j.get k with
    | some v => v.getPath ks
    | none => none

/-- JavaScript truthiness of a JSON value. -/
def jsTruthy : Json → Bool
  | .null => false
  | .bool b => b
  | .num n => n != 0
  | .str s => s != ""
  | .arr _ => true
  | .obj _ => true

/-- Truthiness of a possibly-absent value (`undefined` is falsy). -/
def truthyO : Option Json → Bool
  | some j => jsTruthy j
  | none => false

/-- Read a numeric field (non-numbers are treated as absent). -/
def getNum (j : Json) (k : String) : Option Int :=
  match j.get k with
  | some (.num n) => some n
  | _ => none

/-- Read a numeric field along a path. -/
def numPath (j : Json) (ks : List String) : Option Int :=
  match j.getPath ks with
  | some (.num n) => some n
  | _ => none

/-- `x !== undefined` presence test along a path. -/
def presentPath (j : Json) (ks : List String) : Bool :=
  (j.getPath ks).isSome

/-- JavaScript `a || b` for numeric fields: a present nonzero value wins,
a present `0` (falsy) or an absent field falls through. -/
def orI (a b : Option Int) : Option Int :=
  match a with
  | some n => if n = 0 then b else some n
  | none => b

/-- JavaScript `a || 0`. -/
def jsN (a : Option Int) : Int := a.getD 0

/-- JavaScript `a || b || 0`. -/
def jsN2 (a b : Option Int) : Int := (orI a b).getD 0

/-- JavaScript `a ? a : b` on optional strings (used for `model` updates:
keep `a` when it is already set, otherwise take `b`). -/
def pick (a b : Option String) : Option String :=
  match a with
  | some s => some s
  | none => b

/-- The (truthy, string-valued) `model` property of a payload. -/
def modelField (j : Json) : Option String :=
  match j.get "model" with
  | some (.str s) => if s = "" then none else some s
  | _ => none

/-- `String.startsWith`, via the character list (kernel-reducible). -/
def startsWithS (s p : String) : Bool := p.data.isPrefixOf s.data

/-- The canonical token-usage record (interface `TokenUsageWithModel` of
`token-usage-extraction.ts`). -/
structure TokenUsageWithModel where
  promptCacheMissTokens : Int
  promptCacheHitTokens : Int
  reasoningTokens : Int
  completionTokens : Int
  totalOutputTokens : Int
  totalInputTokens : Int
  promptCacheWriteTokens : Int
  model : Option String
deriving DecidableEq, Repr

/-- Assemble a record from the five extracted counts and the model; the two
totals are derived exactly as in lines 216-218 of the source:
`totalOutputTokens = reasoningTokens + completionTokens` and
`totalInputTokens = promptCacheMissTokens + promptCacheHitTokens +
promptCacheWriteTokens`. -/
def mkUsage (miss hit reas comp write : Int) (model : Option String) :
    TokenUsageWithModel :=
  { promptCacheMissTokens := miss
    promptCacheHitTokens := hit
    reasoningTokens := reas
    completionTokens := comp
    totalOutputTokens := reas + comp
    totalInputTokens := miss + hit + write
    promptCacheWriteTokens := write
    model := model }

/-- The branch dispatch and field extraction of
`extractTokenUsageFromResponseBody` (everything between the null check and the
zero-totals check), as the tuple (cache-miss, cache-hit, reasoning,
completion, cache-write, model). -/
def coreFields (rb : Json) : Int × Int × Int × Int × Int × Option String :=
  -- lines 45-51 of the source: a truthy `model` property is taken; the
  -- `id.startsWith('cmpl-')` fallback re-reads the same falsy `model` property
  -- and therefore always leaves the model undefined
  let model0 := modelField rb
  if truthyO (rb.getPath ["message", "usage"]) then
    -- message_start event shape
    let u := (rb.getPath ["message", "usage"]).getD .null
    let msg := (rb.get "message").getD .null
    (jsN2 (getNum u "input_tokens") (getNum u "prompt_tokens"),
      jsN2 (getNum u "cache_read_input_tokens") (getNum u "cache_read_tokens"),
      0,
      jsN2 (getNum u "completion_tokens") (getNum u "output_tokens"),
      jsN2 (getNum u "cache_creation_input_tokens") (getNum u "cache_write_tokens"),
      pick model0 (modelField msg))
  else if truthyO (rb.get "usage") && presentPath rb ["usage", "promptTokens"]
      && presentPath rb ["usage", "completionTokens"] then
    -- Vercel AI SDK wrapper shape
    let u := (rb.get "usage").getD .null
    let aiSdkPromptTokens := jsN (getNum u "promptTokens")
    let aiSdkCompletionTokens := jsN (getNum u "completionTokens")
    let pmOpenai := rb.getPath ["providerMetadata", "openai"]
    let pmAnthropic := rb.getPath ["providerMetadata", "anthropic"]
    let cachedTokens :=
      if truthyO pmOpenai then
        jsN (numPath rb ["providerMetadata", "openai", "cachedPromptTokens"])
      else if truthyO pmAnthropic then
        jsN (numPath rb ["providerMetadata", "anthropic", "cacheReadInputTokens"])
      else 0
    let aiSdkReasoningTokens :=
      if truthyO pmOpenai then
        jsN (numPath rb ["providerMetadata", "openai", "reasoningTokens"])
      else 0
    let write :=
      if truthyO pmOpenai then 0
      else if truthyO pmAnthropic then
        jsN (numPath rb ["providerMetadata", "anthropic", "cacheCreationInputTokens"])
      else 0
    (max 0 (aiSdkPromptTokens - cachedTokens), cachedTokens,
      aiSdkReasoningTokens, max 0 (aiSdkCompletionTokens - aiSdkReasoningTokens),
      write, pick (modelField rb) model0)
  else if truthyO (rb.get "usage") then
    let isMistral :=
      match rb.get "model" with
      | some (.str s) => startsWithS s "mistral-"
      | _ => false
    if isMistral then
      -- Mistral shape
      let u := (rb.get "usage").getD .null
      (jsN (getNum u "promptTokens"), 0, 0,
        jsN (getNum u "completionTokens"), 0, modelField rb)
    else
      -- generic OpenAI/Anthropic-style snake_case shape
      let u := (rb.get "usage").getD .null
      let miss0 := jsN2 (getNum u "input_tokens") (getNum u "prompt_tokens")
      let reas :=
        if presentPath u ["completion_tokens_details", "reasoning_tokens"] then
          jsN (numPath u ["completion_tokens_details", "reasoning_tokens"])
        else if presentPath u ["completion_tokens_details", "reasoningTokens"] then
          jsN (numPath u ["completion_tokens_details", "reasoningTokens"])
        else jsN (getNum u "reasoningTokens")
      let comp0 := jsN2 (getNum u "completion_tokens") (getNum u "output_tokens")
      let comp := if 0 < reas && 0 < comp0 then comp0 - reas else comp0
      let hit :=
        if presentPath u ["prompt_tokens_details", "cached_tokens"] then
          jsN (numPath u ["prompt_tokens_details", "cached_tokens"])
        else jsN2 (getNum u "cache_read_input_tokens") (getNum u "cache_read_tokens")
      let miss :=
        if presentPath u ["prompt_tokens_details", "cached_tokens"] then
          max 0 (jsN (getNum u "prompt_tokens") - hit)
        else miss0
      let write := jsN2 (getNum u "cache_creation_input_tokens")
        (getNum u "cache_write_tokens")
      (miss, hit, reas, comp, write, model0)
  else if truthyO (rb.get "usageMetadata") then
    let md := (rb.get "usageMetadata").getD .null
    if (md.get "promptTokenCount").isSome && (md.get "candidatesTokenCount").isSome then
      -- Gemini 2.0 Flash shape
      (jsN (getNum md "promptTokenCount"), 0, 0,
        jsN (getNum md "candidatesTokenCount"), 0, pick (modelField rb) model0)
    else
      -- Anthropic usageMetadata shape
      let hit := if truthyO (md.get "cache_read_input_tokens") then
          jsN (getNum md "cache_read_input_tokens") else 0
      let write := if truthyO (md.get "cache_creation_input_tokens") then
          jsN (getNum md "cache_creation_input_tokens") else 0
      (jsN (getNum md "input_tokens"), hit, 0, jsN (getNum md "output_tokens"),
        write, pick (modelField rb) model0)
  else if truthyO (rb.get "usage_object") then
    let u := (rb.get "usage_object").getD .null
    let reas :=
      if presentPath u ["completion_tokens_details", "reasoningTokens"] then
        jsN (numPath u ["completion_tokens_details", "reasoningTokens"])
      else 0
    let comp :=
      if presentPath u ["completion_tokens_details", "reasoningTokens"] then
        jsN (getNum u "completion_tokens") - reas
      else jsN (getNum u "completion_tokens")
    (jsN2 (getNum u "input_tokens") (getNum u "prompt_tokens"),
      jsN (getNum u "cache_read_input_tokens"), reas, comp,
      jsN (getNum u "cache_creation_input_tokens"), pick (modelField rb) model0)
  else if truthyO (rb.get "promptTokenCount") then
    -- flat Google AI Studio shape
    (jsN (getNum rb "promptTokenCount"), 0, 0,
      jsN (getNum rb "candidatesTokenCount"), 0, pick (modelField rb) model0)
  else
    (0, 0, 0, 0, 0, model0)

/-- The record the branch dispatch produces: the extracted counts together
with the uniformly derived totals. -/
def extractCore (rb : Json) : TokenUsageWithModel :=
  mkUsage (coreFields rb).1 (coreFields rb).2.1 (coreFields rb).2.2.1
    (coreFields rb).2.2.2.1 (coreFields rb).2.2.2.2.1 (coreFields rb).2.2.2.2.2

/-- `extractTokenUsageFromResponseBody`: fails on a null/undefined input and on
a body yielding zero total input and zero total output tokens. -/
def extractTokenUsageFromResponseBody (rb : Json) :
    Except String TokenUsageWithModel :=
  match rb with
  | .null => .error "Token usage extraction failed: responseBody is null or undefined"
  | _ =>
    if (extractCore rb).totalInputTokens = 0 ∧ (extractCore rb).totalOutputTokens = 0 then
      .error "Token usage extraction failed: no token usage information in response"
    else .ok (extractCore rb)

deriving instance DecidableEq for Except

/-! ### String utilities (kernel-reducible counterparts of the JavaScript
string operations used by the source). -/
/-- Whitespace as trimmed by `String.prototype.trim` on the payloads at hand. -/
def isWsChar (c : Char) : Bool := c = ' ' || c = '\t' || c = '\n' || c = '\r'

/-- `String.prototype.trim`. -/
def myTrim (s : String) : String :=
  ⟨((s.data.dropWhile isWsChar).reverse.dropWhile isWsChar).reverse⟩

/-- ASCII lower-casing of one character (`String.prototype.toLowerCase`). -/
def lowerChar (c : Char) : Char :=
  if 65 ≤ c.toNat ∧ c.toNat ≤ 90 then Char.ofNat (c.toNat + 32) else c

/-- `String.prototype.toLowerCase` (the model names in play are ASCII). -/
def myToLower (s : String) : String := ⟨s.data.map lowerChar⟩

/-- Fuel-driven split of a character list on a (non-empty) separator;
`fuel ≥ length + 1` always suffices. -/
def splitL (sep : List Char) : Nat → List Char → List Char → List (List Char)
  | 0, acc, cs => [acc.reverse ++ cs]
  | _ + 1, acc, [] => [acc.reverse]
  | fuel + 1, acc, c :: cs =>
    if sep.isPrefixOf (c :: cs) then
      acc.reverse :: splitL sep fuel [] (List.drop sep.length (c :: cs))
    else splitL sep fuel (c :: acc) cs

/-- `String.prototype.split` with a non-empty string separator. -/
def mySplitOn (s sep : String) : List String :=
  (splitL sep.data (s.data.length + 1) [] s.data).map (fun l => ⟨l⟩)

/-- Substring scan used to model `String.prototype.includes`. -/
def containsL (pat : List Char) : List Char → Bool
  | [] => pat.isPrefixOf []
  | c :: cs => pat.isPrefixOf (c :: cs) || containsL pat cs

/-- `String.prototype.includes`. -/
def containsSub (s pat : String) : Bool := containsL pat.data s.data

/-- Drop the first `n` characters of a string. -/
def dropS (s : String) (n : Nat) : String := ⟨s.data.drop n⟩

/-! ### A JSON parser modelling `JSON.parse` (integer numbers, which is all the
provider payloads carry; an event whose payload fails to parse is skipped by
the streaming extractor exactly as a `JSON.parse` exception is). -/
/-- Opening brace character (code point 123). -/
def lbrace : Char := Char.ofNat 123

/-- Closing brace character (code point 125). -/
def rbrace : Char := Char.ofNat 125

/-- Parse the remainder of a string literal (after the opening quote),
handling the simple escapes. -/
def pStrAux : Nat → List Char → List Char → Option (List Char × List Char)
  | 0, _, _ => none
  | _ + 1, _, [] => none
  | fuel + 1, acc, c :: rest =>
    if c = '"' then some (acc.reverse, rest)
    else if c = '\\' then
      match rest with
      | [] => none
      | e :: rest2 =>
        let dc : Option Char :=
          if e = 'n' then some '\n' else if e = 't' then some '\t'
          else if e = 'r' then some '\r' else if e = '"' then some '"'
          else if e = '\\' then some '\\' else if e = '/' then some '/'
          else none
        match dc with
        | some d => pStrAux fuel (d :: acc) rest2
        | none => none
    else pStrAux fuel (c :: acc) rest

/-- Parse a run of decimal digits into a natural number. -/
def pDigits (cs : List Char) : Option (Nat × List Char) :=
  let digits := cs.takeWhile Char.isDigit
  let rest := cs.dropWhile Char.isDigit
  if digits.isEmpty then none
  else
    match rest with
    | '.' :: _ => none
    | 'e' :: _ => none
    | 'E' :: _ => none
    | _ => some (digits.foldl (fun a c => a * 10 + (c.toNat - 48)) 0, rest)

/-- Skip JSON whitespace. -/
def pSkip (cs : List Char) : List Char := cs.dropWhile isWsChar

mutual
/-- Parse one JSON value. -/
def pVal : Nat → List Char → Option (Json × List Char)
  | 0, _ => none
  | fuel + 1, cs =>
    match pSkip cs with
    | [] => none
    | c :: rest =>
      if c = '"' then
        match pStrAux (rest.length + 1) [] rest with
        | some (s, r) => some (.str ⟨s⟩, r)
        | none => none
      else if c = lbrace then
        match pSkip rest with
        | d :: r2 =>
          if d = rbrace then some (.obj .nil, r2)
          else
            match pMembers fuel (pSkip rest) with
            | some (fs, r) => some (.obj fs, r)
            | none => none
        | [] => none
      else if c = '[' then
        match pSkip rest with
        | d :: r2 =>
          if d = ']' then some (.arr .nil, r2)
          else
            match pElems fuel (pSkip rest) with
            | some (xs, r) => some (.arr xs, r)
            | none => none
        | [] => none
      else if ['t', 'r', 'u', 'e'].isPrefixOf (c :: rest) then
        some (.bool true, (c :: rest).drop 4)
      else if ['f', 'a', 'l', 's', 'e'].isPrefixOf (c :: rest) then
        some (.bool false, (c :: rest).drop 5)
      else if ['n', 'u', 'l', 'l'].isPrefixOf (c :: rest) then
        some (.null, (c :: rest).drop 4)
      else if c = '-' then
        match pDigits rest with
        | some (n, r) => some (.num (-(n : Int)), r)
        | none => none
      else
        match pDigits (c :: rest) with
        | some (n, r) => some (.num (n : Int), r)
        | none => none

/-- Parse the members of a JSON object (positioned at the first key). -/
def pMembers : Nat → List Char → Option (JsonFields × List Char)
  | 0, _ => none
  | fuel + 1, cs =>
    match pSkip cs with
    | '"' :: rest =>
      match pStrAux (rest.length + 1) [] rest with
      | some (k, r1) =>
        match pSkip r1 with
        | ':' :: r2 =>
          match pVal fuel r2 with
          | some (v, r3) =>
            match pSkip r3 with
            | ',' :: r4 =>
              match pMembers fuel r4 with
              | some (fs, r5) => some (.cons ⟨k⟩ v fs, r5)
              | none => none
            | d :: r4 =>
              if d = rbrace then some (.cons ⟨k⟩ v .nil, r4) else none
            | [] => none
          | none => none
        | _ => none
      | none => none
    | _ => none

/-- Parse the elements of a JSON array (positioned at the first element). -/
def pElems : Nat → List Char → Option (JsonList × List Char)
  | 0, _ => none
  | fuel + 1, cs =>
    match pVal fuel cs with
    | some (v, r1) =>
      match pSkip r1 with
      | ',' :: r2 =>
        match pElems fuel r2 with
        | some (xs, r3) => some (.cons v xs, r3)
        | none => none
      | d :: r2 => if d = ']' then some (.cons v .nil, r2) else none
      | [] => none
    | none => none
end

/-- `JSON.parse`: the whole input must be consumed. -/
def Json.parse (s : String) : Option Json :=
  match pVal (2 * s.data.length + 8) s.data with
  | some (j, rest) => if pSkip rest = [] then some j else none
  | none => none

/-! ### The streaming (SSE) extractor. -/
/-- The all-zero accumulator the streaming extractor starts from. -/
def initUsage : TokenUsageWithModel := mkUsage 0 0 0 0 0 none

/-- The per-event running update: each of the seven numeric fields becomes the
maximum of the accumulator and the event's value; `model` is kept if already
set. -/
def mergeUsage (t e : TokenUsageWithModel) : TokenUsageWithModel :=
  { promptCacheMissTokens := max t.promptCacheMissTokens e.promptCacheMissTokens
    promptCacheHitTokens := max t.promptCacheHitTokens e.promptCacheHitTokens
    reasoningTokens := max t.reasoningTokens e.reasoningTokens
    completionTokens := max t.completionTokens e.completionTokens
    totalOutputTokens := max t.totalOutputTokens e.totalOutputTokens
    totalInputTokens := max t.totalInputTokens e.totalInputTokens
    promptCacheWriteTokens := max t.promptCacheWriteTokens e.promptCacheWriteTokens
    model := pick t.model e.model }

/-- The parsed JSON payload of one SSE event: its first `data: ` line, with the
`[DONE]` sentinel skipped and unparseable payloads dropped (the source's inner
`catch`). -/
def eventData (ev : String) : Option Json :=
  match (mySplitOn ev "\n").find? (fun l => startsWithS l "data: ") with
  | none => none
  | some dataLine =>
    let jsonStr := dropS dataLine 6
    if jsonStr = "[DONE]" then none else Json.parse jsonStr

/-- The guard of line 314 of the source: the event exposes one of the usage
shapes the streaming extractor folds. -/
def guardUsage (data : Json) : Bool :=
  truthyO (data.getPath ["message", "usage"]) || truthyO (data.get "usage")
    || truthyO (data.get "usageMetadata")

/-- The loop body of `extractTokenUsageFromStreamingResponseBody` for one
event.  The `model` update from the event's raw payload happens before the
object-form extraction is attempted and survives its failure. -/
def processEvent (t : TokenUsageWithModel) (ev : String) : TokenUsageWithModel :=
  match eventData ev with
  | none => t
  | some data =>
    let t1 := { t with model := pick t.model (modelField data) }
    if guardUsage data then
      match extractTokenUsageFromResponseBody data with
      | .error _ => t1
      | .ok e => mergeUsage t1 e
    else t1

/-- Lines 274-281 of the source: split on blank lines, and fall back to
splitting on `data: ` itself when that yields at most one event. -/
def splitEvents (responseText : String) : List String :=
  let events := (mySplitOn responseText "\n\n").filter (fun e => myTrim e ≠ "")
  if events.length ≤ 1 && containsSub responseText "data: " then
    ((mySplitOn responseText "data: ").filter (fun l => myTrim l ≠ "")).map
      (fun l => "data: " ++ l)
  else events

/-- `extractTokenUsageFromStreamingResponseBody`. -/
def extractTokenUsageFromStreamingResponseBody (responseText : String) :
    Except String TokenUsageWithModel :=
  if responseText = "" then
    .error "Token usage extraction failed: response text is null or undefined"
  else if containsSub responseText "event: error"
      || containsSub responseText "\"type\":\"error\"" then
    .error "Token usage extraction failed: error event detected in stream"
  else if ((splitEvents responseText).foldl processEvent initUsage).totalInputTokens = 0
      ∧ ((splitEvents responseText).foldl processEvent initUsage).totalOutputTokens = 0 then
    .error "Token usage extraction failed: no token usage information found in streaming response"
  else .ok ((splitEvents responseText).foldl processEvent initUsage)

/-- The per-event extracted usage record, as folded by the streaming loop:
present exactly when the event parses, passes the usage guard, and the
object-form extractor succeeds on it. -/
def eventUsage (ev : String) : Option TokenUsageWithModel :=
  match eventData ev with
  | none => none
  | some data =>
    if guardUsage data then (extractTokenUsageFromResponseBody data).toOption
    else none

/-- The model name one event reports: its raw `model` property, or failing
that the model of its extracted usage record. -/
def eventModel (ev : String) : Option String :=
  match eventData ev with
  | none => none
  | some data => pick (modelField data) ((eventUsage ev).bind (·.model))

/-- The successful per-event usage records of an event list. -/
def eventRecords (evs : List String) : List TokenUsageWithModel :=
  evs.filterMap eventUsage

/-! ### The cost calculator (`token-cost-calculations.ts`), over exact
rational arithmetic in place of JavaScript floats.  The price table is the
external injected lookup table (model name → pricing record), modelled as an
association list in its insertion order. -/
/-- The normalized pricing record (`ModelPricing`); the additional metadata
fields of the raw JSON records are never read by the calculator. -/
structure ModelPricing where
  input_cost_per_token : Rat
  output_cost_per_token : Rat
  cache_read_input_token_cost : Option Rat := none
  cache_creation_input_token_cost : Option Rat := none
  input_cost_per_token_above_200k_tokens : Option Rat := none
  output_cost_per_token_above_200k_tokens : Option Rat := none
  input_cost_per_token_above_128k_tokens : Option Rat := none
  output_cost_per_token_above_128k_tokens : Option Rat := none
deriving DecidableEq, Repr

/-- The injected price table (`modelPricesData`), in insertion order. -/
def PriceTable := List (String × ModelPricing)

/-- Key lookup in the table (`key in modelPricesData` plus the access). -/
def lookupTable (t : PriceTable) (k : String) : Option ModelPricing :=
  match List.find? (fun kv => kv.1 = k) t with
  | some kv => some kv.2
  | none => none

/-- `calculateTieredTokenCost`. -/
def calculateTieredTokenCost (tokens baseCost : Rat)
    (above200kCost above128kCost : Option Rat) (contextTokens : Option Rat) : Rat :=
  if above200kCost = none ∧ above128kCost = none then tokens * baseCost
  else
    let tierDeterminantTokens := contextTokens.getD tokens
    match above200kCost with
    | some c => if tierDeterminantTokens ≤ 200000 then tokens * baseCost else tokens * c
    | none =>
      match above128kCost with
      | some c => if tierDeterminantTokens ≤ 128000 then tokens * baseCost else tokens * c
      | none => tokens * baseCost

/-- `mapToDefaultProvider`. -/
def mapToDefaultProvider (model : String) : String :=
  let normalizedModel := myTrim (myToLower model)
  if containsSub normalizedModel "/" then model
  else if startsWithS normalizedModel "mistral-" then "mistral/" ++ model
  else if startsWithS normalizedModel "claude-" then model
  else if startsWithS normalizedModel "gpt-" || startsWithS normalizedModel "o1-"
      || startsWithS normalizedModel "text-" then model
  else if startsWithS normalizedModel "gemini-" then model
  else model

/-- The last `/`-separated component of a table key, lower-cased
(`knownModel.split("/").pop()?.toLowerCase()`). -/
def lastComponentLower (k : String) : String :=
  myToLower ((mySplitOn k "/").getLastD "")

/-- The `rawPricing` resolution chain of `getModelPricing`: mapped-name
lookup, then original-name lookup, then the suffix scan over the table keys in
iteration order. -/
def resolvePricing (table : PriceTable) (model : String) : Option ModelPricing :=
  let normalizedModel := myTrim (myToLower (mapToDefaultProvider model))
  let originalNormalized := myTrim (myToLower model)
  match lookupTable table normalizedModel with
  | some p => some p
  | none =>
    match lookupTable table originalNormalized with
    | some p => some p
    | none =>
      match List.find? (fun kv => lastComponentLower kv.1 = originalNormalized) table with
      | some kv => some kv.2
      | none => none

/-- `getModelPricing`: the resolution chain, else `PricingNotFoundError`
naming the model. -/
def getModelPricing (table : PriceTable) (model : String) :
    Except String ModelPricing :=
  match resolvePricing table model with
  | some p => .ok p
  | none =>
    .error ("Model pricing not found for \"" ++ model
      ++ "\". Please update the model prices data.")

/-- `CostBreakdown`. -/
structure CostBreakdown where
  inputCost : Rat
  outputCost : Rat
  cacheReadCost : Rat
  cacheWriteCost : Rat
  totalCost : Rat
deriving DecidableEq, Repr

/-- `SavingsAnalysis`. -/
structure SavingsAnalysis where
  inputSavings : Rat
  totalSavings : Rat
  percentSaved : Rat
deriving DecidableEq, Repr

/-- `CacheStatistics`. -/
structure CacheStatistics where
  hitRate : Rat
  totalInputTokens : Rat
  cachedTokens : Rat
  uncachedTokens : Rat
deriving DecidableEq, Repr

/-- `RequestCostAnalysis`. -/
structure RequestCostAnalysis where
  actualCost : CostBreakdown
  uncachedCost : CostBreakdown
  savings : SavingsAnalysis
  cacheStats : CacheStatistics
deriving DecidableEq, Repr

/-- `calculateRequestCost`. -/
def calculateRequestCost (table : PriceTable) (model : String)
    (promptCacheMissTokens totalOutputTokens promptCacheHitTokens
      promptCacheWriteTokens : Rat) : Except String RequestCostAnalysis :=
  match getModelPricing table model with
  | .error e => .error e
  | .ok pricing =>
    let totalInputTokens := promptCacheMissTokens + promptCacheHitTokens
    let actualInputCost := calculateTieredTokenCost promptCacheMissTokens
      pricing.input_cost_per_token pricing.input_cost_per_token_above_200k_tokens
      pricing.input_cost_per_token_above_128k_tokens none
    let actualOutputCost := calculateTieredTokenCost totalOutputTokens
      pricing.output_cost_per_token pricing.output_cost_per_token_above_200k_tokens
      pricing.output_cost_per_token_above_128k_tokens (some totalInputTokens)
    let cacheReadRate := pricing.cache_read_input_token_cost.getD 0
    let cacheReadCost := promptCacheHitTokens * cacheReadRate
    let cacheWriteRate := pricing.cache_creation_input_token_cost.getD 0
    let cacheWriteCost := promptCacheWriteTokens * cacheWriteRate
    let actualTotalCost := actualInputCost + actualOutputCost + cacheReadCost + cacheWriteCost
    let totalInputTokensIfUncached := totalInputTokens + promptCacheWriteTokens
    let uncachedInputCost := calculateTieredTokenCost totalInputTokensIfUncached
      pricing.input_cost_per_token pricing.input_cost_per_token_above_200k_tokens
      pricing.input_cost_per_token_above_128k_tokens none
    let uncachedOutputCost := calculateTieredTokenCost totalOutputTokens
      pricing.output_cost_per_token pricing.output_cost_per_token_above_200k_tokens
      pricing.output_cost_per_token_above_128k_tokens (some totalInputTokensIfUncached)
    let uncachedTotalCost := uncachedInputCost + uncachedOutputCost
    let inputSavings := uncachedInputCost - actualInputCost
    let totalSavings := uncachedTotalCost - actualTotalCost
    let percentSaved := if 0 < uncachedTotalCost then totalSavings / uncachedTotalCost * 100 else 0
    let hitRate := if 0 < totalInputTokensIfUncached
      then promptCacheHitTokens / totalInputTokensIfUncached else 0
    .ok
      { actualCost :=
          { inputCost := actualInputCost
            outputCost := actualOutputCost
            cacheReadCost := cacheReadCost
            cacheWriteCost := cacheWriteCost
            totalCost := actualTotalCost }
        uncachedCost :=
          { inputCost := uncachedInputCost
            outputCost := uncachedOutputCost
            cacheReadCost := 0
            cacheWriteCost := 0
            totalCost := uncachedTotalCost }
        savings :=
          { inputSavings := inputSavings
            totalSavings := totalSavings
            percentSaved := percentSaved }
        cacheStats :=
          { hitRate := hitRate
            totalInputTokens := totalInputTokensIfUncached
            cachedTokens := promptCacheHitTokens
            uncachedTokens := promptCacheMissTokens + promptCacheWriteTokens } }

deriving instance DecidableEq for Json

/-! ### Claim C3: the spec's worked OpenAI example. -/
/-- Payload of claim C3. -/
def c3payload : Json :=
  jobj [("usage", jobj [("prompt_tokens", .num 2568), ("completion_tokens", .num 268),
    ("prompt_tokens_details", jobj [("cached_tokens", .num 1280)])]),
    ("model", .str "gpt-4o-2024-11-20")]

/-- Payload of claim C4's witness: only `usage.prompt_tokens` and
`usage.completion_tokens` are populated, every other field defaults to 0. -/
def c4payload : Json :=
  jobj [("usage", jobj [("prompt_tokens", .num 7), ("completion_tokens", .num 3)])]

/-- Sample pricing record for C8's witness. -/
def c8price : ModelPricing := { input_cost_per_token := 3, output_cost_per_token := 6 }

/-- Sample price table for C8's witness. -/
def c8table : PriceTable := [("gpt-4", c8price)]

/-- The analysis `calculateRequestCost c8table "gpt-4" 1000 500 0 0` returns. -/
def c8result : RequestCostAnalysis where
  actualCost :=
    { inputCost := 3000
      outputCost := 3000
      cacheReadCost := 0
      cacheWriteCost := 0
      totalCost := 6000 }
  uncachedCost :=
    { inputCost := 3000
      outputCost := 3000
      cacheReadCost := 0
      cacheWriteCost := 0
      totalCost := 6000 }
  savings :=
    { inputSavings := 0
      totalSavings := 0
      percentSaved := 0 }
  cacheStats :=
    { hitRate := 0
      totalInputTokens := 1000
      cachedTokens := 0
      uncachedTokens := 1000 }

/-- Sample pricing record for C10's witness. -/
def c10price : ModelPricing :=
  { input_cost_per_token := 15
    output_cost_per_token := 75
    cache_read_input_token_cost := some 2
    cache_creation_input_token_cost := some 19 }

/-- Sample price table for C10's witness. -/
def c10table : PriceTable := [("claude-3-opus-20240229", c10price)]

/-- The analysis returned for 1000 cache-miss, 500 output, 200 cache-hit and
300 cache-write tokens on C10's table. -/
def c10result : RequestCostAnalysis where
  actualCost :=
    { inputCost := 15000
      outputCost := 37500
      cacheReadCost := 400
      cacheWriteCost := 5700
      totalCost := 58600 }
  uncachedCost :=
    { inputCost := 22500
      outputCost := 37500
      cacheReadCost := 0
      cacheWriteCost := 0
      totalCost := 60000 }
  savings :=
    { inputSavings := 7500
      totalSavings := 1400
      percentSaved := 7 / 3 }
  cacheStats :=
    { hitRate := 2 / 15
      totalInputTokens := 1500
      cachedTokens := 200
      uncachedTokens := 1300 }

/-- First sample pricing record for C6's witness. -/
def c6price1 : ModelPricing := { input_cost_per_token := 3, output_cost_per_token := 6 }

/-- Second sample pricing record for C6's witness. -/
def c6price2 : ModelPricing := { input_cost_per_token := 1, output_cost_per_token := 2 }

/-- Sample price table for C6's witness: a bare OpenAI key and a
provider-qualified Mistral key. -/
def c6table : PriceTable :=
  [("gpt-4", c6price1), ("mistral/mistral-small-latest", c6price2)]

/-- Maximum of a list of counts, starting from the extractor's 0 default. -/
def maxFold (xs : List Int) : Int := xs.foldl max 0

/-- Pointwise comparison of the seven numeric fields of two usage records. -/
def usageLEb (a b : TokenUsageWithModel) : Bool :=
  decide (a.promptCacheMissTokens ≤ b.promptCacheMissTokens)
    && decide (a.promptCacheHitTokens ≤ b.promptCacheHitTokens)
    && decide (a.reasoningTokens ≤ b.reasoningTokens)
    && decide (a.completionTokens ≤ b.completionTokens)
    && decide (a.totalOutputTokens ≤ b.totalOutputTokens)
    && decide (a.totalInputTokens ≤ b.totalInputTokens)
    && decide (a.promptCacheWriteTokens ≤ b.promptCacheWriteTokens)

/-- The records form a pointwise non-decreasing chain. -/
def isMonoChain : List TokenUsageWithModel → Bool
  | [] => true
  | [_] => true
  | a :: b :: r => usageLEb a b && isMonoChain (b :: r)

/-- SSE stream whose two events report reasoning-only and completion-only
output maxima separately. -/
def c1sse : String :=
  "data: \x7b\"usage\":\x7b\"prompt_tokens\":1,\"completion_tokens\":5,\"completion_tokens_details\":\x7b\"reasoning_tokens\":5\x7d\x7d\x7d\n\ndata: \x7b\"usage\":\x7b\"prompt_tokens\":1,\"completion_tokens\":5\x7d\x7d"

/-- The record the streaming extractor returns on `c1sse`. -/
def c1cexResult : TokenUsageWithModel :=
  { promptCacheMissTokens := 1
    promptCacheHitTokens := 0
    reasoningTokens := 5
    completionTokens := 5
    totalOutputTokens := 5
    totalInputTokens := 1
    promptCacheWriteTokens := 0
    model := none }

/-- Object payload for C1's witness. -/
def c1payload : Json :=
  jobj [("usage", jobj [("prompt_tokens", .num 4), ("completion_tokens", .num 2)])]

/-- Monotone two-event SSE stream for C1's witness. -/
def c1monoSse : String :=
  "data: \x7b\"usage\":\x7b\"prompt_tokens\":3,\"completion_tokens\":1\x7d\x7d\n\ndata: \x7b\"usage\":\x7b\"prompt_tokens\":6,\"completion_tokens\":2\x7d\x7d"

/-- The record the streaming extractor returns on `c1monoSse`. -/
def c1monoResult : TokenUsageWithModel := mkUsage 6 0 0 2 0 none

/-- Monotone two-event SSE stream for C2's witness, with a model on the
first event only. -/
def c2sse : String :=
  "data: \x7b\"model\":\"gpt-4o\",\"usage\":\x7b\"prompt_tokens\":10,\"completion_tokens\":5\x7d\x7d\n\ndata: \x7b\"usage\":\x7b\"prompt_tokens\":12,\"completion_tokens\":7\x7d\x7d"

/-- The record the streaming extractor returns on `c2sse`. -/
def c2result : TokenUsageWithModel := mkUsage 12 0 0 7 0 (some "gpt-4o")

/-- The last per-event record of `c2sse`. -/
def c2last : TokenUsageWithModel := mkUsage 12 0 0 7 0 none

/-! ### Claims C5 and C9: field-level properties of the object extractor. -/
mutual
/-- Every numeric leaf of the JSON value is nonnegative (a payload of
counts). -/
def nonnegJson : Json → Bool
  | .null => true
  | .bool _ => true
  | .num n => decide (0 ≤ n)
  | .str _ => true
  | .arr xs => nonnegJsonList xs
  | .obj fs => nonnegJsonFields fs

def nonnegJsonList : JsonList → Bool
  | .nil => true
  | .cons j r => nonnegJson j && nonnegJsonList r

def nonnegJsonFields : JsonFields → Bool
  | .nil => true
  | .cons _ v r => nonnegJson v && nonnegJsonFields r
end

/-- Payload reporting 8 reasoning tokens inside a 5-token completion. -/
def c5payload : Json :=
  jobj [("usage", jobj [("prompt_tokens", .num 10), ("completion_tokens", .num 5),
    ("completion_tokens_details", jobj [("reasoning_tokens", .num 8)])])]

/-- Payload for C5's witness. -/
def c5okPayload : Json :=
  jobj [("usage", jobj [("prompt_tokens", .num 9), ("completion_tokens", .num 4)])]

/-- An optional numeric field of a constructed payload. -/
def optIntField (k : String) : Option Int → List (String × Json)
  | some n => [(k, Json.num n)]
  | none => []

/-- A generic-branch payload carrying optional `input_tokens`,
`prompt_tokens` and `completion_tokens` fields. -/
def c9genericPayload (it pt ct : Option Int) : Json :=
  jobj [("usage", jobj (optIntField "input_tokens" it ++ optIntField "prompt_tokens" pt
    ++ optIntField "completion_tokens" ct))]

/-- Payload with `input_tokens = 0` and `prompt_tokens = 5`. -/
def c9payload : Json :=
  jobj [("usage", jobj [("input_tokens", .num 0), ("prompt_tokens", .num 5),
    ("completion_tokens", .num 3)])]

/-! ### Claim C6: model-name resolution. -/
/-- Lower-casing is idempotent on characters. -/
lemma lowerChar_idem (c : Char) : lowerChar (lowerChar c) = lowerChar c := by
  unfold lowerChar
  by_cases h : 65 ≤ c.toNat ∧ c.toNat ≤ 90
  · rw [if_pos h]
    have hv : (c.toNat + 32).isValidChar := by left; omega
    have ht : (Char.ofNat (c.toNat + 32)).toNat = c.toNat + 32 := by
      unfold Char.ofNat
      rw [dif_pos hv]
      rfl
    rw [if_neg (by omega)]
  · rw [if_neg h, if_neg h]

/-- Lower-casing is idempotent on strings. -/
lemma myToLower_idem (s : String) : myToLower (myToLower s) = myToLower s := by
  unfold myToLower
  show (⟨(s.data.map lowerChar).map lowerChar⟩ : String) = ⟨s.data.map lowerChar⟩
  rw [List.map_map, show (lowerChar ∘ lowerChar) = lowerChar from funext lowerChar_idem]

/-- Lower-casing distributes over append. -/
lemma myToLower_append (a b : String) :
    myToLower (a ++ b) = myToLower a ++ myToLower b := by
  cases a with
  | mk da =>
    cases b with
    | mk db =>
      show myToLower ⟨da ++ db⟩ = _
      unfold myToLower
      show (⟨(da ++ db).map lowerChar⟩ : String) = ⟨da.map lowerChar ++ db.map lowerChar⟩
      rw [List.map_append]

/-- Lower-casing a `mistral/`-qualified name lower-cases its suffix. -/
lemma lower_mistral (m : String) :
    myToLower ("mistral/" ++ m) = "mistral/" ++ myToLower m := by
  rw [myToLower_append]
  have h : myToLower "mistral/" = "mistral/" := by decide
  rw [h]

/-- Provider mapping commutes with lower-casing. -/
lemma mapToDefaultProvider_toLower (m : String) :
    mapToDefaultProvider (myToLower m) = myToLower (mapToDefaultProvider m) := by
  simp only [mapToDefaultProvider, myToLower_idem]
  split <;> simp_all [lower_mistral] <;> split <;> simp_all [lower_mistral]

/-- The normalized mapped key of a lower-cased model name equals that of the
original name. -/
lemma norm_map_toLower (m : String) :
    myTrim (myToLower (mapToDefaultProvider (myToLower m))) =
      myTrim (myToLower (mapToDefaultProvider m)) := by
  rw [mapToDefaultProvider_toLower, myToLower_idem]

/-- The pricing resolution chain is insensitive to the case of its input. -/
lemma resolve_toLower (table : PriceTable) (m : String) :
    resolvePricing table (myToLower m) = resolvePricing table m := by
  unfold resolvePricing
  rw [norm_map_toLower, myToLower_idem]

/-! ### Claims C1 and C2: the streaming (SSE) extractor's folding behaviour.
The lemmas characterise the event loop: each numeric field of the fold is the
running maximum of the per-event extracted values, and the model is the first
one reported. -/
/-- Keeping an already-set model ignores the fallback. -/
lemma pick_none (a : Option String) : pick a none = a := by cases a <;> rfl

/-- First-wins selection is associative. -/
lemma pick_assoc (a b c : Option String) :
    pick (pick a b) c = pick a (pick b c) := by cases a <;> rfl

/-- An event with an extracted usage record has a parsed payload. -/
lemma eventUsage_some_eventData {ev : String} {e : TokenUsageWithModel}
    (h : eventUsage ev = some e) : ∃ data, eventData ev = some data := by
  unfold eventUsage at h
  cases hd : eventData ev
  · rw [hd] at h; exact absurd h (by simp)
  · exact ⟨_, rfl⟩

/-- The loop body, re-expressed through the per-event data and usage. -/
lemma processEvent_eq (t : TokenUsageWithModel) (ev : String) :
    processEvent t ev =
      match eventData ev with
      | none => t
      | some data =>
        match eventUsage ev with
        | some e => mergeUsage { t with model := pick t.model (modelField data) } e
        | none => { t with model := pick t.model (modelField data) } := by
  unfold processEvent eventUsage
  cases hd : eventData ev
  · rfl
  · rename_i data
    by_cases hg : guardUsage data
    · simp only [hg, if_true]
      cases he : extractTokenUsageFromResponseBody data <;> simp [Except.toOption, he]
    · simp [hg]

/-- Each numeric field of the event fold is the maximum fold of the per-event
extracted values of that field. -/
lemma foldl_processEvent_proj (f : TokenUsageWithModel → Int)
    (hm : ∀ (t : TokenUsageWithModel) (m : Option String), f { t with model := m } = f t)
    (hg : ∀ t e, f (mergeUsage t e) = max (f t) (f e)) :
    ∀ (evs : List String) (st : TokenUsageWithModel),
      f (evs.foldl processEvent st) =
        (eventRecords evs).foldl (fun a u => max a (f u)) (f st) := by
  intro evs
  induction evs with
  | nil => intro st; rfl
  | cons ev rest ih =>
    intro st
    rw [List.foldl_cons, ih]
    show _ = (eventRecords (ev :: rest)).foldl _ (f st)
    unfold eventRecords
    rw [List.filterMap_cons]
    cases hu : eventUsage ev
    · have hst : f (processEvent st ev) = f st := by
        rw [processEvent_eq]
        cases hd : eventData ev
        · rfl
        · rw [hu]
          exact hm _ _
      rw [hst]
    · rename_i e
      obtain ⟨data, hd⟩ := eventUsage_some_eventData hu
      have hst : f (processEvent st ev) = max (f st) (f e) := by
        rw [processEvent_eq, hd, hu, hg, hm]
      rw [List.foldl_cons, hst]

/-- The model of the event fold is the first model any event reports. -/
lemma foldl_processEvent_model :
    ∀ (evs : List String) (st : TokenUsageWithModel),
      (evs.foldl processEvent st).model =
        pick st.model ((evs.filterMap eventModel).head?) := by
  intro evs
  induction evs with
  | nil => intro st; rw [List.filterMap_nil]; exact (pick_none _).symm
  | cons ev rest ih =>
    intro st
    rw [List.foldl_cons, ih, List.filterMap_cons]
    cases hd : eventData ev
    · have hm : eventModel ev = none := by unfold eventModel; rw [hd]
      have hp : processEvent st ev = st := by rw [processEvent_eq, hd]
      rw [hm, hp]
    · rename_i data
      have hm : eventModel ev = pick (modelField data) ((eventUsage ev).bind (·.model)) := by
        unfold eventModel; rw [hd]
      cases hu : eventUsage ev
      · have hp : (processEvent st ev).model = pick st.model (modelField data) := by
          rw [processEvent_eq, hd, hu]
        have hm2 : eventModel ev = modelField data := by
          rw [hm, hu]
          exact pick_none _
        rw [hp, hm2, pick_assoc]
        cases hmd : modelField data <;> simp [pick]
      · rename_i e
        have hp : (processEvent st ev).model =
            pick (pick st.model (modelField data)) e.model := by
          rw [processEvent_eq, hd, hu]
          rfl
        have hm2 : eventModel ev = pick (modelField data) e.model := by
          rw [hm, hu]
          rfl
        rw [hp, hm2, pick_assoc, pick_assoc]
        cases hmd : modelField data <;> cases hem : e.model <;> simp [pick]

/-- Unfolding a chain of length at least two. -/
lemma isMonoChain_cons {a b : TokenUsageWithModel} {r : List TokenUsageWithModel}
    (h : isMonoChain (a :: b :: r) = true) :
    usageLEb a b = true ∧ isMonoChain (b :: r) = true := by
  unfold isMonoChain at h
  cases r <;> simp_all [isMonoChain]

/-- A maximum fold over a non-decreasing chain returns the last element. -/
lemma foldl_max_of_chain (f : TokenUsageWithModel → Int)
    (hf : ∀ a b, usageLEb a b = true → f a ≤ f b) :
    ∀ (l : List TokenUsageWithModel) (a x : TokenUsageWithModel),
      isMonoChain (a :: l) = true → l.getLast? = some x →
      l.foldl (fun acc u => max acc (f u)) (f a) = f x := by
  intro l
  induction l with
  | nil => intro a x _ hlast; simp at hlast
  | cons b r ih =>
    intro a x hchain hlast
    obtain ⟨h1, h2⟩ := isMonoChain_cons hchain
    rw [List.foldl_cons, max_eq_right (hf _ _ h1)]
    cases r with
    | nil =>
      simp at hlast
      subst hlast
      rfl
    | cons c r2 =>
      rw [List.getLast?_cons_cons] at hlast
      exact ih b x h2 hlast

/-- A successful streaming extraction returns exactly the event fold. -/
lemma extractStreaming_ok {s : String} {u : TokenUsageWithModel}
    (h : extractTokenUsageFromStreamingResponseBody s = .ok u) :
    u = (splitEvents s).foldl processEvent initUsage := by
  unfold extractTokenUsageFromStreamingResponseBody at h
  split_ifs at h with h1 h2 h3
  simp only [Except.ok.injEq] at h
  exact h.symm

/-- A successful streaming extraction has a nonzero total somewhere. -/
lemma extractStreaming_ok_nonzero {s : String} {u : TokenUsageWithModel}
    (h : extractTokenUsageFromStreamingResponseBody s = .ok u) :
    ¬(u.totalInputTokens = 0 ∧ u.totalOutputTokens = 0) := by
  unfold extractTokenUsageFromStreamingResponseBody at h
  split_ifs at h with h1 h2 h3
  simp only [Except.ok.injEq] at h
  rw [← h]
  exact h3

/-- Field-level form of the fold characterisation over the split events. -/
lemma fold_field_eq (s : String) (f : TokenUsageWithModel → Int)
    (hm : ∀ (t : TokenUsageWithModel) (m : Option String), f { t with model := m } = f t)
    (hg : ∀ t e, f (mergeUsage t e) = max (f t) (f e)) (hz : f initUsage = 0) :
    f ((splitEvents s).foldl processEvent initUsage) =
      maxFold ((eventRecords (splitEvents s)).map f) := by
  have h := foldl_processEvent_proj f hm hg (splitEvents s) initUsage
  rw [hz] at h
  rw [h]
  unfold maxFold
  rw [List.foldl_map]

/-- Under a non-decreasing chain (from the zero state), a field of the fold
equals that field of the last record. -/
lemma fold_field_last (s : String) (f : TokenUsageWithModel → Int)
    (hm : ∀ (t : TokenUsageWithModel) (m : Option String), f { t with model := m } = f t)
    (hg : ∀ t e, f (mergeUsage t e) = max (f t) (f e))
    (hf : ∀ a b, usageLEb a b = true → f a ≤ f b)
    (l : TokenUsageWithModel)
    (hchain : isMonoChain (initUsage :: eventRecords (splitEvents s)) = true)
    (hlast : (eventRecords (splitEvents s)).getLast? = some l) :
    f ((splitEvents s).foldl processEvent initUsage) = f l := by
  have h := foldl_processEvent_proj f hm hg (splitEvents s) initUsage
  rw [h]
  exact foldl_max_of_chain f hf (eventRecords (splitEvents s)) initUsage l hchain hlast

/-- Unpacking the pointwise comparison. -/
lemma usageLEb_le {a b : TokenUsageWithModel} (h : usageLEb a b = true) :
    a.promptCacheMissTokens ≤ b.promptCacheMissTokens
    ∧ a.promptCacheHitTokens ≤ b.promptCacheHitTokens
    ∧ a.reasoningTokens ≤ b.reasoningTokens
    ∧ a.completionTokens ≤ b.completionTokens
    ∧ a.totalOutputTokens ≤ b.totalOutputTokens
    ∧ a.totalInputTokens ≤ b.totalInputTokens
    ∧ a.promptCacheWriteTokens ≤ b.promptCacheWriteTokens := by
  simp only [usageLEb, Bool.and_eq_true, decide_eq_true_eq] at h
  refine ⟨?_, ?_, ?_, ?_, ?_, ?_, ?_⟩ <;> tauto

/-- A successful object-form extraction returns exactly `extractCore`. -/
lemma extractBody_ok {rb : Json} {u : TokenUsageWithModel}
    (h : extractTokenUsageFromResponseBody rb = .ok u) : u = extractCore rb := by
  unfold extractTokenUsageFromResponseBody at h
  cases rb <;> split_ifs at h <;> simp_all

/-- The totals of the dispatch result satisfy the derived-totals identities. -/
lemma extractCore_totals (rb : Json) :
    (extractCore rb).totalOutputTokens =
      (extractCore rb).reasoningTokens + (extractCore rb).completionTokens
    ∧ (extractCore rb).totalInputTokens =
      (extractCore rb).promptCacheMissTokens + (extractCore rb).promptCacheHitTokens
        + (extractCore rb).promptCacheWriteTokens :=
  ⟨rfl, rfl⟩

/-- Both totals identities on any successful object-form extraction. -/
lemma extractBody_totals {rb : Json} {u : TokenUsageWithModel}
    (h : extractTokenUsageFromResponseBody rb = .ok u) :
    u.totalOutputTokens = u.reasoningTokens + u.completionTokens
    ∧ u.totalInputTokens = u.promptCacheMissTokens + u.promptCacheHitTokens
        + u.promptCacheWriteTokens := by
  have hu := extractBody_ok h
  subst hu
  exact extractCore_totals rb

/-- The last element of a list is a member. -/
lemma getLastq_mem {α : Type} {l : List α} {x : α} (h : l.getLast? = some x) : x ∈ l := by
  obtain ⟨hne, hx⟩ := List.mem_getLast?_eq_getLast (show x ∈ l.getLast? from h)
  rw [hx]
  exact List.getLast_mem hne

/-- Every folded event record arose from a successful object-form
extraction. -/
lemma eventRecords_mem_ok {evs : List String} {l : TokenUsageWithModel}
    (h : l ∈ eventRecords evs) :
    ∃ data, extractTokenUsageFromResponseBody data = .ok l := by
  unfold eventRecords at h
  rw [List.mem_filterMap] at h
  obtain ⟨ev, _, hev⟩ := h
  unfold eventUsage at hev
  cases hd : eventData ev <;> rw [hd] at hev <;> dsimp only at hev
  · simp at hev
  · rename_i data
    by_cases hg : guardUsage data
    · rw [if_pos hg] at hev
      cases he : extractTokenUsageFromResponseBody data <;> rw [he] at hev <;>
        simp [Except.toOption] at hev
      rw [hev] at he
      exact ⟨data, he⟩
    · rw [if_neg hg] at hev
      simp at hev

/-- Field lookup preserves nonnegativity. -/
lemma nonneg_getF {k : String} : ∀ {fs : JsonFields} {v : Json},
    nonnegJsonFields fs = true → getF fs k = some v → nonnegJson v = true
  | .nil, v, h, hv => by simp [getF] at hv
  | .cons k2 v2 r, v, h, hv => by
    rw [nonnegJsonFields] at h
    simp only [Bool.and_eq_true] at h
    rw [getF] at hv
    split_ifs at hv
    · cases hv
      exact h.1
    · exact nonneg_getF h.2 hv

/-- Property access preserves nonnegativity. -/
lemma nonneg_get {j : Json} {k : String} {v : Json}
    (h : nonnegJson j = true) (hv : j.get k = some v) : nonnegJson v = true := by
  cases j <;> simp [Json.get] at hv
  rename_i fs
  exact nonneg_getF h hv

/-- Defaulted property access preserves nonnegativity (`null` is vacuously
nonnegative). -/
lemma nonneg_get_getD {j : Json} (h : nonnegJson j = true) (k : String) :
    nonnegJson ((j.get k).getD Json.null) = true := by
  cases hv : j.get k
  · rfl
  · exact nonneg_get h hv

/-- Defaulted path access preserves nonnegativity. -/
lemma nonneg_getPath_getD {j : Json} (h : nonnegJson j = true) (ks : List String) :
    nonnegJson ((j.getPath ks).getD Json.null) = true := by
  induction ks generalizing j with
  | nil => exact h
  | cons k ks ih =>
    rw [Json.getPath]
    cases hv : j.get k
    · rfl
    · exact ih (nonneg_get h hv)

/-- A numeric field read from a nonnegative payload is nonnegative. -/
lemma getNum_nonneg {j : Json} {k : String} (h : nonnegJson j = true) :
    ∀ n, getNum j k = some n → 0 ≤ n := by
  intro n hn
  unfold getNum at hn
  cases hv : j.get k <;> rw [hv] at hn
  · simp at hn
  · rename_i v
    cases v <;> simp at hn
    rename_i m
    have := nonneg_get h hv
    rw [nonnegJson] at this
    simp at this
    rw [← hn]
    exact this

/-- A numeric path read from a nonnegative payload is nonnegative. -/
lemma numPath_nonneg {j : Json} {ks : List String} (h : nonnegJson j = true) :
    ∀ n, numPath j ks = some n → 0 ≤ n := by
  intro n hn
  unfold numPath at hn
  cases hv : j.getPath ks <;> rw [hv] at hn
  · simp at hn
  · rename_i v
    have hnn : nonnegJson v = true := by
      have := nonneg_getPath_getD h ks
      rw [hv] at this
      exact this
    cases v <;> simp at hn
    rename_i m
    rw [nonnegJson] at hnn
    simp at hnn
    rw [← hn]
    exact hnn

/-- `x || 0` of a nonnegative field is nonnegative. -/
lemma jsN_nonneg {a : Option Int} (h : ∀ n, a = some n → 0 ≤ n) : 0 ≤ jsN a := by
  unfold jsN
  cases a
  · rfl
  · rename_i val
    rw [Option.getD_some]
    exact h val rfl

/-- `x || y || 0` of nonnegative fields is nonnegative. -/
lemma jsN2_nonneg {a b : Option Int} (ha : ∀ n, a = some n → 0 ≤ n)
    (hb : ∀ n, b = some n → 0 ≤ n) : 0 ≤ jsN2 a b := by
  unfold jsN2 orI
  cases a
  · exact jsN_nonneg hb
  · rename_i n
    dsimp only
    split_ifs
    · exact jsN_nonneg hb
    · exact ha n rfl

/-- On a payload whose numeric leaves are all nonnegative, the extracted
cache-miss, cache-hit, reasoning and cache-write counts are nonnegative, and
so is the reasoning + completion sum (the derived total output) — the
completion count alone can be negative (see C5's counterexample). -/
lemma coreFields_nonneg (rb : Json) (h : nonnegJson rb = true) :
    0 ≤ (coreFields rb).1 ∧ 0 ≤ (coreFields rb).2.1 ∧ 0 ≤ (coreFields rb).2.2.1
    ∧ 0 ≤ (coreFields rb).2.2.2.2.1
    ∧ 0 ≤ (coreFields rb).2.2.1 + (coreFields rb).2.2.2.1 := by
  unfold coreFields
  split
  · -- message.usage branch
    have hu := nonneg_getPath_getD h ["message", "usage"]
    dsimp only
    refine ⟨?_, ?_, le_refl 0, ?_, ?_⟩
    · exact jsN2_nonneg (getNum_nonneg hu) (getNum_nonneg hu)
    · exact jsN2_nonneg (getNum_nonneg hu) (getNum_nonneg hu)
    · exact jsN2_nonneg (getNum_nonneg hu) (getNum_nonneg hu)
    · simpa using jsN2_nonneg (getNum_nonneg hu) (getNum_nonneg hu)
  · split
    · -- AI SDK wrapper branch
      have hu := nonneg_get_getD h "usage"
      dsimp only
      have hcached : (0:Int) ≤
          (if truthyO (rb.getPath ["providerMetadata", "openai"]) = true then
            jsN (numPath rb ["providerMetadata", "openai", "cachedPromptTokens"])
          else if truthyO (rb.getPath ["providerMetadata", "anthropic"]) = true then
            jsN (numPath rb ["providerMetadata", "anthropic", "cacheReadInputTokens"])
          else 0) := by
        split_ifs
        · exact jsN_nonneg (numPath_nonneg h)
        · exact jsN_nonneg (numPath_nonneg h)
        · exact le_refl 0
      have hreas : (0:Int) ≤
          (if truthyO (rb.getPath ["providerMetadata", "openai"]) = true then
            jsN (numPath rb ["providerMetadata", "openai", "reasoningTokens"])
          else 0) := by
        split_ifs
        · exact jsN_nonneg (numPath_nonneg h)
        · exact le_refl 0
      have hwrite : (0:Int) ≤
          (if truthyO (rb.getPath ["providerMetadata", "openai"]) = true then 0
          else if truthyO (rb.getPath ["providerMetadata", "anthropic"]) = true then
            jsN (numPath rb ["providerMetadata", "anthropic", "cacheCreationInputTokens"])
          else 0) := by
        split_ifs
        · exact le_refl 0
        · exact jsN_nonneg (numPath_nonneg h)
        · exact le_refl 0
      refine ⟨le_max_left 0 _, hcached, hreas, hwrite, ?_⟩
      exact add_nonneg hreas (le_max_left 0 _)
    · split
      · -- has .usage: split the Mistral test
        have hu := nonneg_get_getD h "usage"
        dsimp only
        split
        · -- Mistral shape
          exact ⟨jsN_nonneg (getNum_nonneg hu), le_refl 0, le_refl 0, le_refl 0,
            by simpa using jsN_nonneg (getNum_nonneg hu)⟩
        · -- generic snake_case shape
          have h1 : (0:Int) ≤ jsN (numPath ((rb.get "usage").getD Json.null)
              ["completion_tokens_details", "reasoning_tokens"]) :=
            jsN_nonneg (numPath_nonneg hu)
          have h2 : (0:Int) ≤ jsN (numPath ((rb.get "usage").getD Json.null)
              ["completion_tokens_details", "reasoningTokens"]) :=
            jsN_nonneg (numPath_nonneg hu)
          have h3 : (0:Int) ≤ jsN (getNum ((rb.get "usage").getD Json.null)
              "reasoningTokens") :=
            jsN_nonneg (getNum_nonneg hu)
          have hc : (0:Int) ≤ jsN2 (getNum ((rb.get "usage").getD Json.null)
              "completion_tokens") (getNum ((rb.get "usage").getD Json.null)
              "output_tokens") :=
            jsN2_nonneg (getNum_nonneg hu) (getNum_nonneg hu)
          have hm0 : (0:Int) ≤ jsN2 (getNum ((rb.get "usage").getD Json.null)
              "input_tokens") (getNum ((rb.get "usage").getD Json.null)
              "prompt_tokens") :=
            jsN2_nonneg (getNum_nonneg hu) (getNum_nonneg hu)
          have hhit : (0:Int) ≤ jsN (numPath ((rb.get "usage").getD Json.null)
              ["prompt_tokens_details", "cached_tokens"]) :=
            jsN_nonneg (numPath_nonneg hu)
          have hhit2 : (0:Int) ≤ jsN2 (getNum ((rb.get "usage").getD Json.null)
              "cache_read_input_tokens") (getNum ((rb.get "usage").getD Json.null)
              "cache_read_tokens") :=
            jsN2_nonneg (getNum_nonneg hu) (getNum_nonneg hu)
          have hwr : (0:Int) ≤ jsN2 (getNum ((rb.get "usage").getD Json.null)
              "cache_creation_input_tokens") (getNum ((rb.get "usage").getD Json.null)
              "cache_write_tokens") :=
            jsN2_nonneg (getNum_nonneg hu) (getNum_nonneg hu)
          split_ifs <;> dsimp only <;> refine ⟨?_, ?_, ?_, ?_, ?_⟩ <;>
            first
              | exact le_max_left 0 _
              | exact hm0
              | exact hhit
              | exact hhit2
              | exact h1
              | exact h2
              | exact h3
              | exact hc
              | exact hwr
              | omega
      · split
        · -- usageMetadata branch (Gemini and Anthropic shapes)
          have hmd := nonneg_get_getD h "usageMetadata"
          dsimp only
          split_ifs <;> refine ⟨?_, ?_, ?_, ?_, ?_⟩ <;>
            first
              | exact jsN_nonneg (getNum_nonneg hmd)
              | exact le_refl 0
              | simpa using jsN_nonneg (getNum_nonneg hmd)
        · split
          · -- usage_object branch
            have hu := nonneg_get_getD h "usage_object"
            dsimp only
            have h1 : (0:Int) ≤ jsN (numPath ((rb.get "usage_object").getD Json.null)
                ["completion_tokens_details", "reasoningTokens"]) :=
              jsN_nonneg (numPath_nonneg hu)
            have hc : (0:Int) ≤ jsN (getNum ((rb.get "usage_object").getD Json.null)
                "completion_tokens") :=
              jsN_nonneg (getNum_nonneg hu)
            refine ⟨?_, ?_, ?_, ?_, ?_⟩
            · exact jsN2_nonneg (getNum_nonneg hu) (getNum_nonneg hu)
            · exact jsN_nonneg (getNum_nonneg hu)
            · split_ifs
              · exact h1
              · exact le_refl 0
            · exact jsN_nonneg (getNum_nonneg hu)
            · split_ifs <;> omega
          · split
            · -- flat Google AI Studio branch
              dsimp only
              exact ⟨jsN_nonneg (getNum_nonneg h), le_refl 0, le_refl 0, le_refl 0,
                by simpa using jsN_nonneg (getNum_nonneg h)⟩
            · -- no shape matched
              exact ⟨le_refl 0, le_refl 0, le_refl 0, le_refl 0, le_refl 0⟩

/-- C3: the object extractor, applied to
`{usage: {prompt_tokens: 2568, completion_tokens: 268,
prompt_tokens_details: {cached_tokens: 1280}}, model: "gpt-4o-2024-11-20"}`,
returns exactly the record
`{promptCacheMissTokens: 1288, promptCacheHitTokens: 1280, reasoningTokens: 0,
completionTokens: 268, totalOutputTokens: 268, totalInputTokens: 2568,
promptCacheWriteTokens: 0, model: "gpt-4o-2024-11-20"}`:
`cached_tokens` is authoritative and cache-miss is recomputed as
`max(0, prompt_tokens - cached_tokens)`. -/
theorem claim_C3 :
    extractTokenUsageFromResponseBody c3payload =
      .ok { promptCacheMissTokens := 1288, promptCacheHitTokens := 1280,
            reasoningTokens := 0, completionTokens := 268, totalOutputTokens := 268,
            totalInputTokens := 2568, promptCacheWriteTokens := 0,
            model := some "gpt-4o-2024-11-20" } := by decide

/-! ### Claim C4: the failure condition of the object-form extractor. -/
/-- C4: the object-form extractor fails exactly when the input is
null/undefined or when the body yields zero total input tokens and zero total
output tokens (for example on `{}`); otherwise it succeeds with the extracted
record, whose absent individual fields defaulted to 0. -/
theorem claim_C4 :
    (∀ rb : Json,
      (∃ e, extractTokenUsageFromResponseBody rb = .error e) ↔
        (rb = Json.null ∨
          ((extractCore rb).totalInputTokens = 0 ∧ (extractCore rb).totalOutputTokens = 0)))
    ∧ (∀ rb : Json, rb ≠ Json.null →
        ¬((extractCore rb).totalInputTokens = 0 ∧ (extractCore rb).totalOutputTokens = 0) →
        extractTokenUsageFromResponseBody rb = .ok (extractCore rb))
    ∧ extractTokenUsageFromResponseBody (jobj []) =
        .error "Token usage extraction failed: no token usage information in response" := by
  refine ⟨fun rb => ?_, fun rb h1 h2 => ?_, by decide⟩
  · cases rb <;> simp [extractTokenUsageFromResponseBody] <;> split <;> simp_all
  · cases rb <;> simp_all [extractTokenUsageFromResponseBody] <;> split <;> simp_all

/-- Witness for C4: a partially-populated payload with a nonzero total is
accepted. -/
theorem claim_C4_witness :
    extractTokenUsageFromResponseBody c4payload = .ok (extractCore c4payload) :=
  claim_C4.2.1 c4payload (by decide) (by decide)

/-! ### Claim C7: the tiered rate computation. -/
/-- C7: with an above-200k rate defined, a tier basis of at most 200,000
tokens is billed at the base rate and a basis strictly above 200,000 at the
above-200k rate (boundary inclusive on the low side); a simultaneously defined
above-128k rate is ignored. -/
theorem claim_C7 :
    ∀ (tokens baseCost r200 : Rat) (o128 ctx : Option Rat),
      (ctx.getD tokens ≤ 200000 →
        calculateTieredTokenCost tokens baseCost (some r200) o128 ctx = tokens * baseCost)
      ∧ (200000 < ctx.getD tokens →
        calculateTieredTokenCost tokens baseCost (some r200) o128 ctx = tokens * r200)
      ∧ (∀ r128 : Rat,
        calculateTieredTokenCost tokens baseCost (some r200) (some r128) ctx =
          calculateTieredTokenCost tokens baseCost (some r200) none ctx) := by
  intro tokens baseCost r200 o128 ctx
  refine ⟨fun h => ?_, fun h => ?_, fun r128 => ?_⟩ <;>
    simp only [calculateTieredTokenCost] <;> simp_all

/-- Witness for C7 at concrete rates and bases on both sides of the
boundary. -/
theorem claim_C7_witness :
    calculateTieredTokenCost 10 2 (some 5) none (some 200000) = 10 * 2
    ∧ calculateTieredTokenCost 10 2 (some 5) none (some 200001) = 10 * 5
    ∧ calculateTieredTokenCost 10 2 (some 5) (some 3) (some 200000) =
        calculateTieredTokenCost 10 2 (some 5) none (some 200000) :=
  ⟨(claim_C7 10 2 5 none (some 200000)).1 (by norm_num),
   (claim_C7 10 2 5 none (some 200001)).2.1 (by norm_num),
   (claim_C7 10 2 5 none (some 200000)).2.2 3⟩

/-! ### Claims C8 and C10: algebraic properties of `calculateRequestCost`. -/
/-- C8: with zero cache-hit and zero cache-write tokens, the actual cost
breakdown equals the hypothetical uncached cost breakdown field by field, and
the total savings are zero. -/
theorem claim_C8 :
    ∀ (table : PriceTable) (model : String) (miss out : Rat) (a : RequestCostAnalysis),
      0 ≤ miss → 0 ≤ out →
      calculateRequestCost table model miss out 0 0 = .ok a →
      a.actualCost = a.uncachedCost ∧ a.savings.totalSavings = 0 := by
  intro table model miss out a _ _ h
  cases hp : getModelPricing table model with
  | error e => simp [calculateRequestCost, hp] at h
  | ok p =>
    simp only [calculateRequestCost, hp, Except.ok.injEq] at h
    subst h
    constructor
    · simp
    · simp

/-- Witness for C8 on a concrete table and request. -/
theorem claim_C8_witness :
    c8result.actualCost = c8result.uncachedCost
    ∧ c8result.savings.totalSavings = 0 :=
  claim_C8 c8table "gpt-4" 1000 500 c8result (by norm_num) (by norm_num)
    (by
      have hp : getModelPricing c8table "gpt-4" = .ok c8price := by decide
      simp [calculateRequestCost, hp, calculateTieredTokenCost, c8price, c8result]
      norm_num)

/-- C10: the returned cache hit rate lies in `[0, 1]`: it is
`hit / (miss + hit + write)` when that denominator is positive and `0` when
the denominator is zero, and the reported cached-token count never exceeds
the reported total input tokens. -/
theorem claim_C10 :
    ∀ (table : PriceTable) (model : String) (miss out hit write : Rat)
      (a : RequestCostAnalysis),
      0 ≤ miss → 0 ≤ out → 0 ≤ hit → 0 ≤ write →
      calculateRequestCost table model miss out hit write = .ok a →
      0 ≤ a.cacheStats.hitRate ∧ a.cacheStats.hitRate ≤ 1
      ∧ (0 < miss + hit + write → a.cacheStats.hitRate = hit / (miss + hit + write))
      ∧ (miss + hit + write = 0 → a.cacheStats.hitRate = 0)
      ∧ a.cacheStats.cachedTokens ≤ a.cacheStats.totalInputTokens := by
  intro table model miss out hit write a hm ho hh hw h
  cases hp : getModelPricing table model with
  | error e => simp [calculateRequestCost, hp] at h
  | ok p =>
    simp only [calculateRequestCost, hp, Except.ok.injEq] at h
    subst h
    refine ⟨?_, ?_, fun hpos => ?_, fun hzero => ?_, ?_⟩
    · simp only
      split
      · positivity
      · exact le_refl 0
    · simp only
      split
      · rename_i hgt
        exact div_le_one_of_le₀ (by linarith) (by linarith)
      · exact zero_le_one
    · simp only
      rw [if_pos hpos]
    · simp only
      rw [if_neg (by simp [hzero])]
    · simp only
      linarith

/-- Witness for C10 on a concrete table and request with caching. -/
theorem claim_C10_witness :
    0 ≤ c10result.cacheStats.hitRate ∧ c10result.cacheStats.hitRate ≤ 1
    ∧ (0 < (1000 : Rat) + 200 + 300 →
        c10result.cacheStats.hitRate = 200 / ((1000 : Rat) + 200 + 300))
    ∧ ((1000 : Rat) + 200 + 300 = 0 → c10result.cacheStats.hitRate = 0)
    ∧ c10result.cacheStats.cachedTokens ≤ c10result.cacheStats.totalInputTokens :=
  claim_C10 c10table "claude-3-opus-20240229" 1000 500 200 300 c10result
    (by norm_num) (by norm_num) (by norm_num) (by norm_num)
    (by
      have hp : getModelPricing c10table "claude-3-opus-20240229" = .ok c10price := by
        decide
      simp [calculateRequestCost, hp, calculateTieredTokenCost, c10price, c10result]
      norm_num)

/-- C6: pricing lookup is case-insensitive (a lower-cased query resolves to
the same record); a `/`-free name starting with `mistral-` is mapped to the
`mistral/<name>` key and found there first; and when the mapped name, the
original name and the suffix scan all fail, lookup fails with a
`PricingNotFoundError` naming the model. -/
theorem claim_C6 :
    (∀ (table : PriceTable) (m : String) (p : ModelPricing),
      getModelPricing table m = .ok p ↔ getModelPricing table (myToLower m) = .ok p)
    ∧ (∀ (table : PriceTable) (m : String) (p : ModelPricing),
      containsSub (myTrim (myToLower m)) "/" = false →
      startsWithS (myTrim (myToLower m)) "mistral-" = true →
      mapToDefaultProvider m = "mistral/" ++ m
        ∧ (lookupTable table (myTrim (myToLower ("mistral/" ++ m))) = some p →
          getModelPricing table m = .ok p))
    ∧ (∀ (table : PriceTable) (m : String),
      lookupTable table (myTrim (myToLower (mapToDefaultProvider m))) = none →
      lookupTable table (myTrim (myToLower m)) = none →
      List.find? (fun kv => lastComponentLower kv.1 = myTrim (myToLower m)) table = none →
      getModelPricing table m =
        .error ("Model pricing not found for \"" ++ m
          ++ "\". Please update the model prices data.")) := by
  refine ⟨fun table m p => ?_, fun table m p h1 h2 => ⟨?_, fun hl => ?_⟩,
    fun table m h1 h2 h3 => ?_⟩
  · simp only [getModelPricing, resolve_toLower]
    cases hr : resolvePricing table m <;> simp [hr]
  · simp [mapToDefaultProvider, h1, h2]
  · have hm : mapToDefaultProvider m = "mistral/" ++ m := by
      simp [mapToDefaultProvider, h1, h2]
    simp [getModelPricing, resolvePricing, hm, hl]
  · simp [getModelPricing, resolvePricing, h1, h2, h3]

/-- Witness for C6: `GPT-4` resolves like `gpt-4`, a bare `mistral-*` name is
found under its `mistral/` key, and an unknown model yields the error naming
it. -/
theorem claim_C6_witness :
    getModelPricing c6table "GPT-4" = .ok c6price1
    ∧ mapToDefaultProvider "mistral-small-latest" = "mistral/" ++ "mistral-small-latest"
    ∧ getModelPricing c6table "mistral-small-latest" = .ok c6price2
    ∧ getModelPricing c6table "unknown-model-xyz" =
        .error ("Model pricing not found for \"" ++ "unknown-model-xyz"
          ++ "\". Please update the model prices data.") :=
  ⟨(claim_C6.1 c6table "GPT-4" c6price1).mpr (by decide),
   (claim_C6.2.1 c6table "mistral-small-latest" c6price2 (by decide) (by decide)).1,
   (claim_C6.2.1 c6table "mistral-small-latest" c6price2 (by decide) (by decide)).2
     (by decide),
   claim_C6.2.2 c6table "unknown-model-xyz" (by decide) (by decide) (by decide)⟩

/-- C2: for every SSE input, the streaming extractor folds each of the seven
numeric fields as the maximum of the per-event extracted values (never a sum),
and the returned model comes from the first event that reports one; when the
per-event records are non-decreasing (counts, so bounded below by the zero
state), the result equals the last reported value per field. -/
theorem claim_C2 :
    ∀ (s : String) (u : TokenUsageWithModel),
      extractTokenUsageFromStreamingResponseBody s = .ok u →
      (u.promptCacheMissTokens =
          maxFold ((eventRecords (splitEvents s)).map (·.promptCacheMissTokens))
        ∧ u.promptCacheHitTokens =
          maxFold ((eventRecords (splitEvents s)).map (·.promptCacheHitTokens))
        ∧ u.reasoningTokens =
          maxFold ((eventRecords (splitEvents s)).map (·.reasoningTokens))
        ∧ u.completionTokens =
          maxFold ((eventRecords (splitEvents s)).map (·.completionTokens))
        ∧ u.totalOutputTokens =
          maxFold ((eventRecords (splitEvents s)).map (·.totalOutputTokens))
        ∧ u.totalInputTokens =
          maxFold ((eventRecords (splitEvents s)).map (·.totalInputTokens))
        ∧ u.promptCacheWriteTokens =
          maxFold ((eventRecords (splitEvents s)).map (·.promptCacheWriteTokens))
        ∧ u.model = ((splitEvents s).filterMap eventModel).head?)
      ∧ (∀ l : TokenUsageWithModel,
        isMonoChain (initUsage :: eventRecords (splitEvents s)) = true →
        (eventRecords (splitEvents s)).getLast? = some l →
        u.promptCacheMissTokens = l.promptCacheMissTokens
        ∧ u.promptCacheHitTokens = l.promptCacheHitTokens
        ∧ u.reasoningTokens = l.reasoningTokens
        ∧ u.completionTokens = l.completionTokens
        ∧ u.totalOutputTokens = l.totalOutputTokens
        ∧ u.totalInputTokens = l.totalInputTokens
        ∧ u.promptCacheWriteTokens = l.promptCacheWriteTokens) := by
  intro s u h
  have hu := extractStreaming_ok h
  subst hu
  constructor
  · refine ⟨?_, ?_, ?_, ?_, ?_, ?_, ?_, ?_⟩
    · exact fold_field_eq s (·.promptCacheMissTokens) (fun t m => rfl) (fun t e => rfl) rfl
    · exact fold_field_eq s (·.promptCacheHitTokens) (fun t m => rfl) (fun t e => rfl) rfl
    · exact fold_field_eq s (·.reasoningTokens) (fun t m => rfl) (fun t e => rfl) rfl
    · exact fold_field_eq s (·.completionTokens) (fun t m => rfl) (fun t e => rfl) rfl
    · exact fold_field_eq s (·.totalOutputTokens) (fun t m => rfl) (fun t e => rfl) rfl
    · exact fold_field_eq s (·.totalInputTokens) (fun t m => rfl) (fun t e => rfl) rfl
    · exact fold_field_eq s (·.promptCacheWriteTokens) (fun t m => rfl) (fun t e => rfl) rfl
    · have hmod := foldl_processEvent_model (splitEvents s) initUsage
      rw [hmod]
      rfl
  · intro l hchain hlast
    refine ⟨?_, ?_, ?_, ?_, ?_, ?_, ?_⟩
    · exact fold_field_last s (·.promptCacheMissTokens) (fun t m => rfl) (fun t e => rfl)
        (fun a b hab => (usageLEb_le hab).1) l hchain hlast
    · exact fold_field_last s (·.promptCacheHitTokens) (fun t m => rfl) (fun t e => rfl)
        (fun a b hab => (usageLEb_le hab).2.1) l hchain hlast
    · exact fold_field_last s (·.reasoningTokens) (fun t m => rfl) (fun t e => rfl)
        (fun a b hab => (usageLEb_le hab).2.2.1) l hchain hlast
    · exact fold_field_last s (·.completionTokens) (fun t m => rfl) (fun t e => rfl)
        (fun a b hab => (usageLEb_le hab).2.2.2.1) l hchain hlast
    · exact fold_field_last s (·.totalOutputTokens) (fun t m => rfl) (fun t e => rfl)
        (fun a b hab => (usageLEb_le hab).2.2.2.2.1) l hchain hlast
    · exact fold_field_last s (·.totalInputTokens) (fun t m => rfl) (fun t e => rfl)
        (fun a b hab => (usageLEb_le hab).2.2.2.2.2.1) l hchain hlast
    · exact fold_field_last s (·.promptCacheWriteTokens) (fun t m => rfl) (fun t e => rfl)
        (fun a b hab => (usageLEb_le hab).2.2.2.2.2.2) l hchain hlast

/-- C1 (amended): every record returned by the object-form extractor
satisfies `totalOutputTokens = reasoningTokens + completionTokens` and
`totalInputTokens = promptCacheMissTokens + promptCacheHitTokens +
promptCacheWriteTokens`; the streaming extractor satisfies them whenever the
per-event records form a pointwise non-decreasing chain (cumulative totals),
but not unconditionally (see the counterexample). -/
theorem claim_C1 :
    (∀ (rb : Json) (u : TokenUsageWithModel),
      extractTokenUsageFromResponseBody rb = .ok u →
      u.totalOutputTokens = u.reasoningTokens + u.completionTokens
      ∧ u.totalInputTokens = u.promptCacheMissTokens + u.promptCacheHitTokens
          + u.promptCacheWriteTokens)
    ∧ (∀ (s : String) (u : TokenUsageWithModel),
      extractTokenUsageFromStreamingResponseBody s = .ok u →
      isMonoChain (initUsage :: eventRecords (splitEvents s)) = true →
      u.totalOutputTokens = u.reasoningTokens + u.completionTokens
      ∧ u.totalInputTokens = u.promptCacheMissTokens + u.promptCacheHitTokens
          + u.promptCacheWriteTokens) := by
  constructor
  · exact fun rb u h => extractBody_totals h
  · intro s u h hchain
    have hnz := extractStreaming_ok_nonzero h
    have hu := extractStreaming_ok h
    subst hu
    cases hrec : eventRecords (splitEvents s) with
    | nil =>
      exfalso
      apply hnz
      constructor
      · have hf := fold_field_eq s (fun t => t.totalInputTokens)
          (fun t m => rfl) (fun t e => rfl) rfl
        dsimp only at hf
        rw [hf, hrec]
        rfl
      · have hf := fold_field_eq s (fun t => t.totalOutputTokens)
          (fun t m => rfl) (fun t e => rfl) rfl
        dsimp only at hf
        rw [hf, hrec]
        rfl
    | cons r rest =>
      have hne : eventRecords (splitEvents s) ≠ [] := by rw [hrec]; simp
      have hsome : (eventRecords (splitEvents s)).getLast?.isSome := by
        rw [List.getLast?_isSome]
        exact hne
      obtain ⟨x, hx⟩ := Option.isSome_iff_exists.mp hsome
      obtain ⟨data, hdata⟩ := eventRecords_mem_ok (getLastq_mem hx)
      have e1 := fold_field_last s (fun t => t.promptCacheMissTokens)
        (fun t m => rfl) (fun t e => rfl)
        (fun a b hab => (usageLEb_le hab).1) x hchain hx
      have e2 := fold_field_last s (fun t => t.promptCacheHitTokens)
        (fun t m => rfl) (fun t e => rfl)
        (fun a b hab => (usageLEb_le hab).2.1) x hchain hx
      have e3 := fold_field_last s (fun t => t.reasoningTokens)
        (fun t m => rfl) (fun t e => rfl)
        (fun a b hab => (usageLEb_le hab).2.2.1) x hchain hx
      have e4 := fold_field_last s (fun t => t.completionTokens)
        (fun t m => rfl) (fun t e => rfl)
        (fun a b hab => (usageLEb_le hab).2.2.2.1) x hchain hx
      have e5 := fold_field_last s (fun t => t.totalOutputTokens)
        (fun t m => rfl) (fun t e => rfl)
        (fun a b hab => (usageLEb_le hab).2.2.2.2.1) x hchain hx
      have e6 := fold_field_last s (fun t => t.totalInputTokens)
        (fun t m => rfl) (fun t e => rfl)
        (fun a b hab => (usageLEb_le hab).2.2.2.2.2.1) x hchain hx
      have e7 := fold_field_last s (fun t => t.promptCacheWriteTokens)
        (fun t m => rfl) (fun t e => rfl)
        (fun a b hab => (usageLEb_le hab).2.2.2.2.2.2) x hchain hx
      dsimp only at e1 e2 e3 e4 e5 e6 e7
      have hxid := extractBody_totals hdata
      constructor
      · rw [e5, e3, e4]
        exact hxid.1
      · rw [e6, e1, e2, e7]
        exact hxid.2

/-- Counterexample to C1 as stated: on `c1sse` the streaming extractor
succeeds with `totalOutputTokens = 5` but `reasoningTokens + completionTokens
= 10`. -/
theorem claim_C1_counterexample :
    extractTokenUsageFromStreamingResponseBody c1sse = .ok c1cexResult
    ∧ c1cexResult.totalOutputTokens ≠
        c1cexResult.reasoningTokens + c1cexResult.completionTokens := by
  decide

/-- Witness for C1 on a concrete payload and a concrete monotone stream. -/
theorem claim_C1_witness :
    ((extractCore c1payload).totalOutputTokens =
      (extractCore c1payload).reasoningTokens + (extractCore c1payload).completionTokens)
    ∧ (c1monoResult.totalInputTokens = c1monoResult.promptCacheMissTokens
        + c1monoResult.promptCacheHitTokens + c1monoResult.promptCacheWriteTokens) :=
  ⟨(claim_C1.1 c1payload (extractCore c1payload) (by decide)).1,
   (claim_C1.2 c1monoSse c1monoResult (by decide) (by decide)).2⟩

/-- Witness for C2 on `c2sse`. -/
theorem claim_C2_witness :
    c2result.promptCacheMissTokens =
      maxFold ((eventRecords (splitEvents c2sse)).map (·.promptCacheMissTokens))
    ∧ c2result.model = ((splitEvents c2sse).filterMap eventModel).head?
    ∧ c2result.completionTokens = c2last.completionTokens
    ∧ c2result.totalInputTokens = c2last.totalInputTokens := by
  have h := claim_C2 c2sse c2result (by decide)
  exact ⟨h.1.1, h.1.2.2.2.2.2.2.2,
    (h.2 c2last (by decide) (by decide)).2.2.2.1,
    (h.2 c2last (by decide) (by decide)).2.2.2.2.2.1⟩

/-- C5 (amended): on every payload whose reported counts are nonnegative, a
successful object-form extraction returns nonnegative `promptCacheMissTokens`,
`promptCacheHitTokens`, `reasoningTokens` and `promptCacheWriteTokens`, and a
nonnegative `totalOutputTokens`; `completionTokens` itself can be negative
when the reported reasoning count exceeds the reported completion count (see
the counterexample), so the claim's blanket `completionTokens ≥ 0` fails. -/
theorem claim_C5 :
    ∀ (rb : Json) (u : TokenUsageWithModel),
      nonnegJson rb = true →
      extractTokenUsageFromResponseBody rb = .ok u →
      0 ≤ u.promptCacheMissTokens ∧ 0 ≤ u.promptCacheHitTokens
      ∧ 0 ≤ u.reasoningTokens ∧ 0 ≤ u.promptCacheWriteTokens
      ∧ 0 ≤ u.totalOutputTokens := by
  intro rb u h hok
  have hu := extractBody_ok hok
  subst hu
  have hc := coreFields_nonneg rb h
  exact ⟨hc.1, hc.2.1, hc.2.2.1, hc.2.2.2.1, hc.2.2.2.2⟩

/-- Counterexample to C5 as stated: a nonnegative payload whose reasoning
count exceeds its completion count yields `completionTokens = -3 < 0`. -/
theorem claim_C5_counterexample :
    nonnegJson c5payload = true
    ∧ extractTokenUsageFromResponseBody c5payload = .ok (extractCore c5payload)
    ∧ (extractCore c5payload).completionTokens = -3
    ∧ (extractCore c5payload).completionTokens < 0 := by decide

/-- Witness for C5 on a concrete nonnegative payload. -/
theorem claim_C5_witness :
    0 ≤ (extractCore c5okPayload).promptCacheMissTokens
    ∧ 0 ≤ (extractCore c5okPayload).promptCacheHitTokens
    ∧ 0 ≤ (extractCore c5okPayload).reasoningTokens
    ∧ 0 ≤ (extractCore c5okPayload).promptCacheWriteTokens
    ∧ 0 ≤ (extractCore c5okPayload).totalOutputTokens :=
  claim_C5 c5okPayload (extractCore c5okPayload) (by decide) (by decide)

/-- C9 (amended): in the generic `.usage` branch, `promptCacheMissTokens` is
`usage.input_tokens` when that field is present and nonzero; a present-but-zero
`input_tokens` falls through to `prompt_tokens` exactly like an absent one
(JavaScript `||`, not `??`), so `promptCacheMissTokens` is `prompt_tokens`
whenever `input_tokens` is absent or zero and `prompt_tokens` is present, and
`0` when both are absent. -/
theorem claim_C9 :
    ∀ (it pt ct : Option Int),
      (∀ n, it = some n → n ≠ 0 →
        (extractCore (c9genericPayload it pt ct)).promptCacheMissTokens = n)
      ∧ (∀ m, (it = none ∨ it = some 0) → pt = some m →
        (extractCore (c9genericPayload it pt ct)).promptCacheMissTokens = m)
      ∧ ((it = none ∨ it = some 0) → pt = none →
        (extractCore (c9genericPayload it pt ct)).promptCacheMissTokens = 0) := by
  intro it pt ct
  refine ⟨?_, ?_, ?_⟩
  · rintro n rfl hn
    cases pt <;> cases ct <;>
      simp [c9genericPayload, optIntField, extractCore, coreFields, jobj, fieldsOf,
        Json.get, Json.getPath, getF, truthyO, jsTruthy, presentPath, getNum, numPath,
        jsN, jsN2, orI, modelField, mkUsage, hn]
  · rintro m hit rfl
    rcases hit with rfl | rfl <;> cases ct <;>
      simp [c9genericPayload, optIntField, extractCore, coreFields, jobj, fieldsOf,
        Json.get, Json.getPath, getF, truthyO, jsTruthy, presentPath, getNum, numPath,
        jsN, jsN2, orI, modelField, mkUsage]
  · rintro hit rfl
    rcases hit with rfl | rfl <;> cases ct <;>
      simp [c9genericPayload, optIntField, extractCore, coreFields, jobj, fieldsOf,
        Json.get, Json.getPath, getF, truthyO, jsTruthy, presentPath, getNum, numPath,
        jsN, jsN2, orI, modelField, mkUsage]

/-- Counterexample to C9 as stated: with `input_tokens = 0` present and
`prompt_tokens = 5`, the extractor returns `promptCacheMissTokens = 5`, not
the claimed `0`. -/
theorem claim_C9_counterexample :
    extractTokenUsageFromResponseBody c9payload = .ok (extractCore c9payload)
    ∧ (extractCore c9payload).promptCacheMissTokens = 5
    ∧ (extractCore c9payload).promptCacheMissTokens ≠ 0 := by decide

/-- Witness for C9's amended rule at three concrete field combinations. -/
theorem claim_C9_witness :
    (extractCore (c9genericPayload (some 0) (some 5) (some 3))).promptCacheMissTokens = 5
    ∧ (extractCore (c9genericPayload (some 7) (some 5) (some 3))).promptCacheMissTokens = 7
    ∧ (extractCore (c9genericPayload none none (some 3))).promptCacheMissTokens = 0 :=
  ⟨(claim_C9 (some 0) (some 5) (some 3)).2.1 5 (Or.inr rfl) rfl,
   (claim_C9 (some 7) (some 5) (some 3)).1 7 rfl (by decide),
   (claim_C9 none none (some 3)).2.2 (Or.inl rfl) rfl⟩
